/-
Verification development for the Superset cloud-sandbox core
(packages/sandbox/app.py and packages/sandbox/sandbox/{app,git_ops,runner}.py).

The Python sources are shallowly embedded: pure helpers become Lean
functions, Python `int`/`str` library behaviour is modelled explicitly
(decimal parsing with sign/underscores/whitespace, `str.split`,
`str.splitlines`, `str.strip`, substring `in`), HMAC-SHA256 is implemented
concretely over byte lists, exceptions are an explicit `Except`, and the
external processes (the agent subprocess, git) are parameters supplying
their observable outputs.  Machine integers do not occur: Python ints are
unbounded, so `Nat`/`Int` are exact.
-/
import Mathlib

set_option maxRecDepth 8000

namespace Superset

/-! ### Python exceptions and JSON values -/

/-- The Python exceptions that the modelled code can raise. -/
inductive PyExc
  | valueError
  | typeError
  | attributeError
deriving DecidableEq

/-- A parsed JSON value, as produced by `json.loads` (floats are not needed
by any modelled code path, so numbers are `Int`). -/
inductive Json
  | null
  | bool (b : Bool)
  | num (n : Int)
  | str (s : String)
  | arr (xs : List Json)
  | obj (kvs : List (String × Json))

/-- Python truthiness of a JSON value (`if x:`). -/
def pyTruthy : Json → Bool
  | .null => false
  | .bool b => b
  | .num n => n != 0
  | .str s => !s.isEmpty
  | .arr xs => !xs.isEmpty
  | .obj kvs => !kvs.isEmpty

/-- Python `x == "s"` where `x` is an arbitrary object: true exactly when
`x` is the string `s`. -/
def jsonEqStr (j : Json) (s : String) : Bool :=
  match j with
  | .str t => t == s
  | _ => false

/-- Python `dict.get(k, default)`. -/
def dictGet (kvs : List (String × Json)) (k : String) (dflt : Json) : Json :=
  match kvs.lookup k with
  | some v => v
  | none => dflt

/-- Python `x.get(k, default)` on an arbitrary object: dictionaries answer,
anything else raises `AttributeError`. -/
def pyGetAttr (j : Json) (k : String) (dflt : Json) : Except PyExc Json :=
  match j with
  | .obj kvs => .ok (dictGet kvs k dflt)
  | _ => .error .attributeError

/-! ### Python string library behaviour -/

/-- The ASCII whitespace stripped by Python `str.strip()` / `int()`. -/
def isPySpace (c : Char) : Bool :=
  c == ' ' || c == '\t' || c == '\n' || c == '\r' || c == '\x0b' || c == '\x0c'

/-- `str.strip()` on the character list. -/
def stripWS (l : List Char) : List Char :=
  ((l.dropWhile isPySpace).reverse.dropWhile isPySpace).reverse

/-- Python `str.strip()`. -/
def pyStrip (s : String) : String := ⟨stripWS s.data⟩

/-- Python `str.split(sep)` for a one-character separator, on character
lists: `"".split(".") == [""]`, `"a.".split(".") == ["a",""]`. -/
def splitList (sep : Char) : List Char → List (List Char)
  | [] => [[]]
  | c :: cs =>
    if c == sep then [] :: splitList sep cs
    else
      match splitList sep cs with
      | [] => [[c]]
      | r :: rs => (c :: r) :: rs

/-- Python `str.split(sep)` for a one-character separator. -/
def pySplit (sep : Char) (s : String) : List String :=
  (splitList sep s.data).map (fun l => ⟨l⟩)

/-- Helper for `splitlines`: a trailing newline contributes no final empty
line in Python. -/
def dropTrailingEmpty (l : List (List Char)) : List (List Char) :=
  match l.getLast? with
  | some [] => l.dropLast
  | _ => l

/-- Python `str.splitlines()` (modelled for `\n`-separated text, the form
`git status --porcelain` produces). -/
def pySplitlines (s : String) : List String :=
  (dropTrailingEmpty (splitList '\n' s.data)).map (fun l => ⟨l⟩)

/-- Is `n` a prefix of the second list (Boolean)? -/
def listIsPre : List Char → List Char → Bool
  | [], _ => true
  | _ :: _, [] => false
  | a :: as, b :: bs => a == b && listIsPre as bs

/-- Does `n` occur contiguously inside the second list (Boolean)? -/
def listSub (n : List Char) : List Char → Bool
  | [] => n.isEmpty
  | b :: bs => listIsPre n (b :: bs) || listSub n bs

/-- Python `needle in hay` on strings (substring containment). -/
def strContains (needle hay : String) : Bool := listSub needle.data hay.data

/-- Python slicing `s[:n]`. -/
def pyTake (n : Nat) (s : String) : String := ⟨s.data.take n⟩

/-- Python `"\n".join(lines)`. -/
def joinNL (ls : List String) : String := String.intercalate "\n" ls

/-! ### Python `int(str)` and `str(int)` for non-negative values -/

/-- Is `c` an ASCII decimal digit? -/
def isDigitChar (c : Char) : Bool := 48 ≤ c.toNat && c.toNat ≤ 57

/-- The value of an ASCII digit character. -/
def charVal (c : Char) : Nat := c.toNat - 48

/-- The ASCII character of a decimal digit. -/
def digitChar (d : Nat) : Char := ("0123456789" : String).data.getD d '0'

/-- Big-endian decimal digits of `n` (with fuel; `natRepr` supplies
`fuel = n`, which is enough since a positive number has at most `n`
digits). -/
def natDigitsAux : Nat → Nat → List Char
  | 0, _ => []
  | fuel + 1, n =>
    if n = 0 then []
    else natDigitsAux fuel (n / 10) ++ [digitChar (n % 10)]

/-- Python `str(n)` for a non-negative int. -/
def natRepr (n : Nat) : String :=
  if n = 0 then "0" else ⟨natDigitsAux n n⟩

/-- Digit-run parser of Python `int()`: after the first digit, single
underscores are allowed between digits. -/
def pyIntDigits : Nat → List Char → Option Nat
  | acc, [] => some acc
  | acc, c :: rest =>
    if c == '_' then
      match rest with
      | [] => none
      | d :: rest' =>
        if isDigitChar d then pyIntDigits (10 * acc + charVal d) rest' else none
    else if isDigitChar c then pyIntDigits (10 * acc + charVal c) rest
    else none

/-- The digit run must start with a digit. -/
def pyIntCore : List Char → Option Nat
  | [] => none
  | c :: rest => if isDigitChar c then pyIntDigits (charVal c) rest else none

/-- Python `int(s)`: strip whitespace, optional sign, decimal digits with
optional single underscores between digits; `none` models the
`ValueError` raised on anything else. -/
def pyInt (s : String) : Option Int :=
  match stripWS s.data with
  | [] => none
  | c :: rest =>
    if c == '+' then (pyIntCore rest).map Int.ofNat
    else if c == '-' then (pyIntCore rest).map (fun n => -(n : Int))
    else (pyIntCore (c :: rest)).map Int.ofNat

/-- `hmac.compare_digest` on hex-digest strings: functionally, string
equality (the constant-time property is timing behaviour, not a value; the
`TypeError` it raises on non-ASCII input is caught by the callers'
`except` and coincides with inequality here, since the second argument is
always an ASCII hex digest). -/
def compare_digest (a b : String) : Bool := a == b

/-! ### SHA-256 and HMAC-SHA256 (concrete, over byte lists) -/

/-- Truncate to a 32-bit word. -/
def w32 (n : Nat) : Nat := n % 4294967296

/-- 32-bit right rotation. -/
def rotr32 (n x : Nat) : Nat := w32 ((x >>> n) ||| (x <<< (32 - n)))

/-- 32-bit complement. -/
def compl32 (x : Nat) : Nat := x ^^^ 4294967295

def bigSigma0 (x : Nat) : Nat := (rotr32 2 x) ^^^ (rotr32 13 x) ^^^ (rotr32 22 x)

def bigSigma1 (x : Nat) : Nat := (rotr32 6 x) ^^^ (rotr32 11 x) ^^^ (rotr32 25 x)

def smallSigma0 (x : Nat) : Nat := (rotr32 7 x) ^^^ (rotr32 18 x) ^^^ (x >>> 3)

def smallSigma1 (x : Nat) : Nat := (rotr32 17 x) ^^^ (rotr32 19 x) ^^^ (x >>> 10)

def chFn (x y z : Nat) : Nat := (x &&& y) ^^^ (compl32 x &&& z)

def majFn (x y z : Nat) : Nat := (x &&& y) ^^^ (x &&& z) ^^^ (y &&& z)

/-- The 64 SHA-256 round constants (FIPS 180-4, written in decimal). -/
def sha256K : List Nat :=
  [1116352408, 1899447441, 3049323471, 3921009573, 961987163,
   1508970993, 2453635748, 2870763221, 3624381080, 310598401,
   607225278, 1426881987, 1925078388, 2162078206, 2614888103,
   3248222580, 3835390401, 4022224774, 264347078, 604807628,
   770255983, 1249150122, 1555081692, 1996064986, 2554220882,
   2821834349, 2952996808, 3210313671, 3336571891, 3584528711,
   113926993, 338241895, 666307205, 773529912, 1294757372,
   1396182291, 1695183700, 1986661051, 2177026350, 2456956037,
   2730485921, 2820302411, 3259730800, 3345764771, 3516065817,
   3600352804, 4094571909, 275423344, 430227734, 506948616,
   659060556, 883997877, 958139571, 1322822218, 1537002063,
   1747873779, 1955562222, 2024104815, 2227730452, 2361852424,
   2428436474, 2756734187, 3204031479, 3329325298]

/-- SHA-256 working state: eight 32-bit words. -/
structure H8 where
  a : Nat
  b : Nat
  c : Nat
  d : Nat
  e : Nat
  f : Nat
  g : Nat
  h : Nat

/-- SHA-256 initial hash value (FIPS 180-4, written in decimal). -/
def sha256H0 : H8 :=
  ⟨1779033703, 3144134277, 1013904242, 2773480762,
   1359893119, 2600822924, 528734635, 1541459225⟩

/-- One SHA-256 round, consuming a `(k, w)` pair. -/
def sha256Round (st : H8) (kw : Nat × Nat) : H8 :=
  let t1 := w32 (st.h + bigSigma1 st.e + chFn st.e st.f st.g + kw.1 + kw.2)
  let t2 := w32 (bigSigma0 st.a + majFn st.a st.b st.c)
  ⟨w32 (t1 + t2), st.a, st.b, st.c, w32 (st.d + t1), st.e, st.f, st.g⟩

/-- Big-endian 32-bit words from bytes. -/
def bytesToWords : List Nat → List Nat
  | b0 :: b1 :: b2 :: b3 :: rest =>
    (b0 * 16777216 + b1 * 65536 + b2 * 256 + b3) :: bytesToWords rest
  | _ => []

/-- Extend the message schedule by one word. -/
def extendStep (ws : List Nat) : List Nat :=
  ws ++ [w32 (smallSigma1 (ws.getD (ws.length - 2) 0) + ws.getD (ws.length - 7) 0 +
              smallSigma0 (ws.getD (ws.length - 15) 0) + ws.getD (ws.length - 16) 0)]

/-- The 64-word message schedule of one 64-byte block. -/
def sha256Schedule (block : List Nat) : List Nat :=
  (List.range 48).foldl (fun ws _ => extendStep ws) (bytesToWords block)

/-- Compress one 64-byte block into the state. -/
def sha256Compress (st : H8) (block : List Nat) : H8 :=
  let fin := (sha256K.zip (sha256Schedule block)).foldl sha256Round st
  ⟨w32 (st.a + fin.a), w32 (st.b + fin.b), w32 (st.c + fin.c), w32 (st.d + fin.d),
   w32 (st.e + fin.e), w32 (st.f + fin.f), w32 (st.g + fin.g), w32 (st.h + fin.h)⟩

/-- The 8 big-endian length bytes of the bit length. -/
def lenBytes64 (n : Nat) : List Nat :=
  [n >>> 56 % 256, n >>> 48 % 256, n >>> 40 % 256, n >>> 32 % 256,
   n >>> 24 % 256, n >>> 16 % 256, n >>> 8 % 256, n % 256]

/-- SHA-256 padding: `0x80`, zeros to 56 mod 64, then the 64-bit bit
length. -/
def padMessage (msg : List Nat) : List Nat :=
  msg ++ 128 :: List.replicate ((119 - msg.length % 64) % 64) 0 ++
    lenBytes64 (msg.length * 8)

/-- Split into 64-byte blocks (fuel-driven structural recursion). -/
def chunks64 : Nat → List Nat → List (List Nat)
  | 0, _ => []
  | _ + 1, [] => []
  | fuel + 1, l => l.take 64 :: chunks64 fuel (l.drop 64)

/-- The four big-endian bytes of a 32-bit word. -/
def wordBytes (w : Nat) : List Nat :=
  [w >>> 24 % 256, w >>> 16 % 256, w >>> 8 % 256, w % 256]

/-- SHA-256 of a byte list, as 32 digest bytes. -/
def sha256 (msg : List Nat) : List Nat :=
  let padded := padMessage msg
  let fin := (chunks64 padded.length padded).foldl sha256Compress sha256H0
  wordBytes fin.a ++ wordBytes fin.b ++ wordBytes fin.c ++ wordBytes fin.d ++
  wordBytes fin.e ++ wordBytes fin.f ++ wordBytes fin.g ++ wordBytes fin.h

/-- HMAC-SHA256 of a message under a key, as 32 digest bytes. -/
def hmacSha256 (key msg : List Nat) : List Nat :=
  let k0 := if 64 < key.length then sha256 key else key
  let kp := k0 ++ List.replicate (64 - k0.length) 0
  sha256 ((kp.map (fun b => b ^^^ 92)) ++ sha256 ((kp.map (fun b => b ^^^ 54)) ++ msg))

/-- A lowercase hex digit character. -/
def hexChar (d : Nat) : Char := ("0123456789abcdef" : String).data.getD d '0'

/-- Lowercase hex encoding of bytes (`hexdigest()`). -/
def bytesToHex (bs : List Nat) : List Char :=
  bs.flatMap (fun b => [hexChar (b / 16 % 16), hexChar (b % 16)])

/-- UTF-8 bytes of one character (Python `str.encode()`). -/
def utf8Bytes (c : Char) : List Nat :=
  let n := c.toNat
  if n < 128 then [n]
  else if n < 2048 then [192 + n / 64, 128 + n % 64]
  else if n < 65536 then [224 + n / 4096, 128 + n / 64 % 64, 128 + n % 64]
  else [240 + n / 262144, 128 + n / 4096 % 64, 128 + n / 64 % 64, 128 + n % 64]

/-- Python `str.encode()` (UTF-8). -/
def strBytes (s : String) : List Nat := s.data.flatMap utf8Bytes

/-- `hmac.new(secret.encode(), msg.encode(), hashlib.sha256).hexdigest()`. -/
def hmacSha256Hex (secret msg : String) : String :=
  ⟨bytesToHex (hmacSha256 (strBytes secret) (strBytes msg))⟩

/-! ### Authentication helpers of `packages/sandbox/app.py`

`nowMs` makes the ambient clock (`time.time() * 1000`) an explicit
argument; everything else follows the source line by line. -/

namespace App

/-- `generate_internal_token` of `packages/sandbox/app.py`. -/
def generate_internal_token (secret : String) (nowMs : Nat) : String :=
  let timestamp := natRepr nowMs
  let signature := hmacSha256Hex secret timestamp
  timestamp ++ "." ++ signature

/-- The body of `verify_internal_token` before its `except Exception`
handler: split on `.`, require exactly two parts (else `False`), parse the
timestamp (`int` raises `ValueError`), reject when
`now - timestamp > max_age_ms`, else compare the signature against the
recomputed HMAC. -/
def verify_body (token secret : String) (maxAgeMs nowMs : Int) : Except PyExc Bool :=
  match pySplit '.' token with
  | [timestampStr, signature] =>
    match pyInt timestampStr with
    | none => .error .valueError
    | some timestamp =>
      if nowMs - timestamp > maxAgeMs then .ok false
      else .ok (compare_digest signature (hmacSha256Hex secret timestampStr))
  | _ => .ok false

/-- `verify_internal_token` of `packages/sandbox/app.py`: the body with
every exception caught and turned into `False`. -/
def verify_internal_token (token secret : String) (maxAgeMs nowMs : Int) : Bool :=
  match verify_body token secret maxAgeMs nowMs with
  | .ok b => b
  | .error _ => false

end App

/-! ### The duplicated draft `packages/sandbox/sandbox/app.py`

The token helpers appear again, line for line, in the second draft; they
are embedded separately so that the extensional equality of the two
drafts is a statement, not a definition. -/

namespace SandboxApp

/-- `generate_internal_token` of `packages/sandbox/sandbox/app.py`. -/
def generate_internal_token (secret : String) (nowMs : Nat) : String :=
  let timestamp := natRepr nowMs
  let signature := hmacSha256Hex secret timestamp
  timestamp ++ "." ++ signature

/-- Body of `verify_internal_token` of `packages/sandbox/sandbox/app.py`
before its `except Exception` handler. -/
def verify_body (token secret : String) (maxAgeMs nowMs : Int) : Except PyExc Bool :=
  match pySplit '.' token with
  | [timestampStr, signature] =>
    match pyInt timestampStr with
    | none => .error .valueError
    | some timestamp =>
      if nowMs - timestamp > maxAgeMs then .ok false
      else .ok (compare_digest signature (hmacSha256Hex secret timestampStr))
  | _ => .ok false

/-- `verify_internal_token` of `packages/sandbox/sandbox/app.py`. -/
def verify_internal_token (token secret : String) (maxAgeMs nowMs : Int) : Bool :=
  match verify_body token secret maxAgeMs nowMs with
  | .ok b => b
  | .error _ => false

end SandboxApp

/-! ### Events (the `EventEmitter` taxonomy) -/

/-- An event as built by the convenience emitters of `EventEmitter`.  The
`mid` field is the `message_id` argument (a JSON value; `null` when the
Python argument is `None`).  `toolResult` keeps the optional error that
`emit_tool_result` adds only when truthy. -/
inductive Event
  | gitSync (data : List (String × Json))
  | error (message : Json) (mid : Json)
  | token (text : Json) (mid : Json)
  | toolCall (name : Json) (input : Json) (mid : Json)
  | toolResult (name : Json) (output : Json) (errOpt : Option Json) (mid : Json)
  | executionComplete (success : Bool) (summary : Json) (mid : Json)

/-- The message id an event carries (`null` for `git_sync`, which is
emitted without one). -/
def Event.mid : Event → Json
  | .gitSync _ => .null
  | .error _ m => m
  | .token _ m => m
  | .toolCall _ _ m => m
  | .toolResult _ _ _ m => m
  | .executionComplete _ _ m => m

/-- Is this an `execution_complete` event? -/
def Event.isComplete : Event → Bool
  | .executionComplete _ _ _ => true
  | _ => false

/-! ### `EventEmitter.emit` delivery logic -/

/-- Where `EventEmitter.emit` delivered (or dropped) the event. -/
inductive EmitOutcome
  | viaBridge
  | viaHttp
  | dropped
deriving DecidableEq

/-- The event dict built at the top of `EventEmitter.emit`: id, type,
timestamp, data, plus `messageId` only when truthy. -/
def build_event (eventId : String) (eventType : String) (ts : Nat)
    (data : Json) (messageId : Json) : List (String × Json) :=
  [("id", .str eventId), ("type", .str eventType), ("timestamp", .num ts), ("data", data)] ++
    (if pyTruthy messageId then [("messageId", messageId)] else [])

namespace EventEmitter

/-- The delivery logic of `EventEmitter.emit`: if a bridge is attached and
connected, try `bridge.send_event` and return on success; on a raised
exception fall through.  Then try the HTTP POST (including
`raise_for_status`), and swallow any exception.  The outcomes of the two
external sends are parameters; the result is the control-flow outcome, in
`Except` to make "never raises" a statement rather than a typing
accident. -/
def emit (event : List (String × Json)) (bridgeSet bridgeConnected : Bool)
    (bridgeSend httpPost : Except PyExc Unit) :
    Except PyExc (EmitOutcome × List (String × Json)) :=
  if bridgeSet && bridgeConnected then
    match bridgeSend with
    | .ok _ => .ok (.viaBridge, event)
    | .error _ =>
      match httpPost with
      | .ok _ => .ok (.viaHttp, event)
      | .error _ => .ok (.dropped, event)
  else
    match httpPost with
    | .ok _ => .ok (.viaHttp, event)
    | .error _ => .ok (.dropped, event)

end EventEmitter

/-! ### `ClaudeRunner` (`packages/sandbox/app.py`): output classification
and prompt supervision -/

namespace ClaudeRunner

/-- The `for block in content:` loop of the `assistant` branch: each block
answers `block.get("type")` (raising `AttributeError` when it is not a
dict), and a text block emits one token event carrying
`block.get("text", "")`. -/
def emitTextBlocks (mid : Json) : List Json → Except PyExc (List Event)
  | [] => .ok []
  | b :: rest =>
    match pyGetAttr b "type" .null with
    | .error e => .error e
    | .ok bt =>
      if jsonEqStr bt "text" then
        match pyGetAttr b "text" (.str "") with
        | .error e => .error e
        | .ok txt =>
          match emitTextBlocks mid rest with
          | .error e => .error e
          | .ok tl => .ok (Event.token txt mid :: tl)
      else emitTextBlocks mid rest

/-- `ClaudeRunner._process_output_line`: `parsed` is the outcome of
`json.loads(line)` (`none` = `json.JSONDecodeError`, the only exception
the source catches).  A decoded non-JSON-object makes `event.get` raise;
iterating a non-list `content` models Python iteration (strings and dicts
iterate their characters/keys, which are not dicts and raise at
`block.get` unless empty; other values raise `TypeError` at the loop). -/
def process_output_line (parsed : Option Json) (line : String) (mid : Json) :
    Except PyExc (List Event) :=
  match parsed with
  | none => .ok [Event.token (.str line) mid]
  | some event =>
    match pyGetAttr event "type" .null with
    | .error e => .error e
    | .ok etype =>
      if jsonEqStr etype "assistant" then
        match pyGetAttr event "message" (.obj []) with
        | .error e => .error e
        | .ok msg =>
          match pyGetAttr msg "content" (.arr []) with
          | .error e => .error e
          | .ok content =>
            match content with
            | .arr blocks => emitTextBlocks mid blocks
            | .str s => if s.isEmpty then .ok [] else .error .attributeError
            | .obj kvs => if kvs.isEmpty then .ok [] else .error .attributeError
            | _ => .error .typeError
      else if jsonEqStr etype "tool_use" then
        match pyGetAttr event "name" (.str "unknown") with
        | .error e => .error e
        | .ok name =>
          match pyGetAttr event "input" (.obj []) with
          | .error e => .error e
          | .ok input => .ok [Event.toolCall name input mid]
      else if jsonEqStr etype "tool_result" then
        match pyGetAttr event "name" (.str "unknown") with
        | .error e => .error e
        | .ok name =>
          match pyGetAttr event "output" .null with
          | .error e => .error e
          | .ok output =>
            match pyGetAttr event "error" .null with
            | .error e => .error e
            | .ok err =>
              .ok [Event.toolResult name output (if pyTruthy err then some err else none) mid]
      else if jsonEqStr etype "error" then
        match pyGetAttr event "error" (.str "Unknown error") with
        | .error e => .error e
        | .ok msg => .ok [Event.error msg mid]
      else
        .ok []

/-- The events a line yields when it classifies without raising
(used only to state order/concatenation properties). -/
def lineEventsOk (jp : String → Option Json) (mid : Json) (raw : String) : List Event :=
  match process_output_line (jp raw) raw mid with
  | .ok evs => evs
  | .error _ => []

/-- The `read_stdout` reader thread over the subprocess's stdout lines
(`jp` is `json.loads`): strip, skip empty lines, collect the line, then
classify it.  An exception kills the thread: later lines yield nothing.
Returns (collected `output_lines`, emitted events, the exception). -/
def readStdout (jp : String → Option Json) (mid : Json) :
    List String → List String × List Event × Option PyExc
  | [] => ([], [], none)
  | raw :: rest =>
    let l := pyStrip raw
    if l.isEmpty then readStdout jp mid rest
    else
      match process_output_line (jp l) l mid with
      | .ok evs =>
        let r := readStdout jp mid rest
        (l :: r.1, evs ++ r.2.1, r.2.2)
      | .error e => ([l], [], some e)

/-- The `read_stderr` reader: strip and collect non-empty lines. -/
def readStderr (ls : List String) : List String :=
  (ls.map pyStrip).filter (fun l => !l.isEmpty)

/-- The observable behaviour of one agent subprocess: its stdout and
stderr lines, and `some code` when `wait()` returns within the execution
timeout or `none` when it raises `TimeoutExpired`. -/
structure ProcBehavior where
  stdoutLines : List String
  stderrLines : List String
  exitResult : Option Int

/-- The dict `run_prompt` returns (absent keys are `none`). -/
structure RunResult where
  success : Bool
  exitCode : Option Int
  output : Option String
  errorText : Option String

/-- The state of the subprocess when `run_prompt` returns. -/
inductive ProcFinal
  | exited (code : Int)
  | killed

/-- `ClaudeRunner.run_prompt` of `packages/sandbox/app.py`, as a function
of the subprocess behaviour (sequentialised: reader output precedes the
wait outcome).  On `TimeoutExpired`: kill, emit an error event, return
failure — no `execution_complete`.  On exit: success iff code 0; a failed
run with captured stderr first emits a `Claude CLI error` event; then
exactly one `execution_complete` event is emitted. -/
def run_prompt (jp : String → Option Json) (pb : ProcBehavior) (mid : Json) :
    RunResult × List Event × ProcFinal :=
  let rd := readStdout jp mid pb.stdoutLines
  let outLines := rd.1
  let evs := rd.2.1
  let errLines := readStderr pb.stderrLines
  match pb.exitResult with
  | none =>
    (⟨false, none, none, some "Execution timed out"⟩,
     evs ++ [Event.error (.str "Execution timed out") mid], .killed)
  | some code =>
    let success := code == 0
    let errorText := if errLines.isEmpty then none else some (joinNL errLines)
    let errEvs :=
      match success, errorText with
      | false, some e => [Event.error (.str ("Claude CLI error: " ++ pyTake 200 e)) mid]
      | _, _ => []
    let summary :=
      if success then "Prompt completed"
      else "Prompt failed: " ++ (match errorText with
        | some e => pyTake 100 e
        | none => "unknown error")
    (⟨success, some code, some (joinNL outLines), errorText⟩,
     evs ++ errEvs ++ [Event.executionComplete success (.str summary) mid],
     .exited code)

end ClaudeRunner

/-! ### `ControlPlaneBridge._handle_prompt` -/

/-- An outbound WebSocket message of the connected bridge. -/
inductive BridgeMsg
  | executionStarted (mid : Json)
  | executionComplete (mid : Json) (success : Bool)
  | event (e : Event)
  | pong

/-- Is this an `execution_complete` notification? -/
def BridgeMsg.isComplete : BridgeMsg → Bool
  | .executionComplete _ _ => true
  | _ => false

/-- How many `execution_complete` notifications a message list holds. -/
def countComplete (msgs : List BridgeMsg) : Nat :=
  (msgs.filter BridgeMsg.isComplete).length

namespace ControlPlaneBridge

/-- `ControlPlaneBridge._handle_prompt` on a connected bridge, as the
sequence of outbound messages it produces: nothing when `content` is not
truthy; otherwise `execution_started`, then every event the synchronous
`run_prompt` emits (relayed by `send_event`), then one
`execution_complete` with the run's success. -/
def handle_prompt (jp : String → Option Json) (pb : ClaudeRunner.ProcBehavior)
    (data : List (String × Json)) : List BridgeMsg :=
  let mid := dictGet data "messageId" .null
  let content := dictGet data "content" .null
  if !pyTruthy content then []
  else
    let r := ClaudeRunner.run_prompt jp pb mid
    BridgeMsg.executionStarted mid ::
      (r.2.1.map BridgeMsg.event ++ [BridgeMsg.executionComplete mid r.1.success])

end ControlPlaneBridge

/-! ### `GitOperations` (`packages/sandbox/sandbox/git_ops.py`)

`git` is an external program; the functions are parameterised by an
interpreter `exec : σ → List String → GitResult × σ` supplying each
subprocess's `CompletedProcess`.  Two interpreters are used: an idealised
git state machine (for what a well-behaved git does), and a scripted one
replaying an arbitrary result list (for what the control flow does with
arbitrary subprocess outcomes). -/

/-- `subprocess.CompletedProcess` of one git invocation. -/
structure GitResult where
  returncode : Int
  stdout : String
  stderr : String
deriving DecidableEq

namespace GitOperations

/-- `GitOperations.checkout_branch`: fetch the base branch (non-zero exit
fails), `ls-remote` the working branch (exit code unchecked), and branch
on substring membership of the branch name in its stdout: existing →
checkout, retrying as `-b origin/<branch>`, then pull (result ignored);
missing → create from `origin/<base>`.  The final checked result decides
success. -/
def checkout_branch {σ : Type} (exec : σ → List String → GitResult × σ)
    (branch baseBranch : String) (s0 : σ) : Bool × σ × List Event :=
  let ev0 := [Event.gitSync [("status", Json.str "checking_out"), ("branch", Json.str branch)]]
  let f := exec s0 ["fetch", "origin", baseBranch]
  if f.1.returncode ≠ 0 then
    (false, f.2, ev0 ++ [Event.error (.str ("Failed to fetch base branch: " ++ f.1.stderr)) .null])
  else
    let ls := exec f.2 ["ls-remote", "--heads", "origin", branch]
    if strContains branch ls.1.stdout then
      let co := exec ls.2 ["checkout", branch]
      let co2 :=
        if co.1.returncode ≠ 0 then exec co.2 ["checkout", "-b", branch, "origin/" ++ branch]
        else co
      let s3 :=
        if co2.1.returncode = 0 then (exec co2.2 ["pull", "origin", branch]).2
        else co2.2
      if co2.1.returncode ≠ 0 then
        (false, s3, ev0 ++ [Event.error (.str ("Failed to checkout branch: " ++ co2.1.stderr)) .null])
      else
        (true, s3, ev0 ++ [Event.gitSync [("status", Json.str "checked_out"), ("branch", Json.str branch)]])
    else
      let cb := exec ls.2 ["checkout", "-b", branch, "origin/" ++ baseBranch]
      if cb.1.returncode ≠ 0 then
        (false, cb.2, ev0 ++ [Event.error (.str ("Failed to checkout branch: " ++ cb.1.stderr)) .null])
      else
        (true, cb.2, ev0 ++ [Event.gitSync [("status", Json.str "checked_out"), ("branch", Json.str branch)]])

/-- The changed-files list `get_status` reads from
`git status --porcelain` output. -/
def statusChanged (out : String) : List String :=
  ((pySplitlines out).map pyStrip).filter (fun l => !l.isEmpty)

/-- The dict `GitOperations.get_status` returns. -/
structure GitStatusR where
  branch : Option String
  sha : Option String
  changedFiles : List String
  hasChanges : Bool

/-- `GitOperations.get_status`: porcelain status (exit code unchecked),
`rev-parse HEAD`, `branch --show-current`. -/
def get_status {σ : Type} (exec : σ → List String → GitResult × σ) (s0 : σ) :
    GitStatusR × σ :=
  let st := exec s0 ["status", "--porcelain"]
  let changed := statusChanged st.1.stdout
  let rp := exec st.2 ["rev-parse", "HEAD"]
  let sha := if rp.1.returncode = 0 then some (pyStrip rp.1.stdout) else none
  let br := exec rp.2 ["branch", "--show-current"]
  let branch := if br.1.returncode = 0 then some (pyStrip br.1.stdout) else none
  (⟨branch, sha, changed, !changed.isEmpty⟩, br.2)

/-- `GitOperations.push_changes`: a clean status short-circuits to `True`
before any further subprocess; otherwise stage all, commit the fixed
message, push the working branch, failing on the first non-zero exit. -/
def push_changes {σ : Type} (exec : σ → List String → GitResult × σ)
    (branch : String) (s0 : σ) : Bool × σ × List Event :=
  let st := get_status exec s0
  if !st.1.hasChanges then (true, st.2, [])
  else
    let ev0 := [Event.gitSync [("status", Json.str "pushing")]]
    let ad := exec st.2 ["add", "-A"]
    if ad.1.returncode ≠ 0 then
      (false, ad.2, ev0 ++ [Event.error (.str ("Git add failed: " ++ ad.1.stderr)) .null])
    else
      let cm := exec ad.2 ["commit", "-m", "Changes from Superset cloud workspace"]
      if cm.1.returncode ≠ 0 then
        (false, cm.2, ev0 ++ [Event.error (.str ("Git commit failed: " ++ cm.1.stderr)) .null])
      else
        let pu := exec cm.2 ["push", "origin", branch]
        if pu.1.returncode ≠ 0 then
          (false, pu.2, ev0 ++ [Event.error (.str ("Git push failed: " ++ pu.1.stderr)) .null])
        else
          (true, pu.2, ev0 ++ [Event.gitSync [("status", Json.str "pushed"), ("branch", Json.str branch)]])

end GitOperations

/-! ### Interpreters for the git subprocess -/

/-- The idealised state of the clone's repository world: remote branch
tips, locally known `origin/<name>` refs, local branches, the current
branch, and the porcelain status text of the working tree. -/
structure GitState where
  remote : List (String × Nat)
  fetched : List (String × Nat)
  locals : List (String × Nat)
  current : String
  porcelain : String

/-- Strip a literal `origin/` from a ref name's characters. -/
def stripOriginPre (l : List Char) : Option (List Char) :=
  match l with
  | 'o' :: 'r' :: 'i' :: 'g' :: 'i' :: 'n' :: '/' :: rest => some rest
  | _ => none

/-- Resolve a `checkout -b` start point: `origin/<name>` refs resolve via
the fetched refs, anything else via local branches. -/
def resolveStart (s : GitState) (start : String) : Option Nat :=
  match stripOriginPre start.data with
  | some rest => s.fetched.lookup ⟨rest⟩
  | none => s.locals.lookup start

/-- An idealised well-behaved git, interpreting exactly the commands the
embedded code issues. -/
def gitExecIdeal (s : GitState) (args : List String) : GitResult × GitState :=
  match args with
  | ["fetch", "origin", b] =>
    match s.remote.lookup b with
    | some t => (⟨0, "", ""⟩, { s with fetched := (b, t) :: s.fetched })
    | none => (⟨128, "", "fatal: could not find remote ref " ++ b⟩, s)
  | ["ls-remote", "--heads", "origin", b] =>
    match s.remote.lookup b with
    | some t => (⟨0, natRepr t ++ "\trefs/heads/" ++ b ++ "\n", ""⟩, s)
    | none => (⟨0, "", ""⟩, s)
  | ["checkout", b] =>
    match s.locals.lookup b with
    | some _ => (⟨0, "", ""⟩, { s with current := b })
    | none => (⟨1, "", "error: pathspec did not match"⟩, s)
  | ["checkout", "-b", b, start] =>
    if (s.locals.lookup b).isSome then (⟨128, "", "fatal: branch already exists"⟩, s)
    else
      match resolveStart s start with
      | some t => (⟨0, "", ""⟩, { s with locals := (b, t) :: s.locals, current := b })
      | none => (⟨128, "", "fatal: not a commit"⟩, s)
  | ["pull", "origin", _] => (⟨0, "Already up to date.\n", ""⟩, s)
  | ["status", "--porcelain"] => (⟨0, s.porcelain, ""⟩, s)
  | ["rev-parse", "HEAD"] =>
    (⟨0, natRepr ((s.locals.lookup s.current).getD 0) ++ "\n", ""⟩, s)
  | ["branch", "--show-current"] => (⟨0, s.current ++ "\n", ""⟩, s)
  | _ => (⟨1, "", "unknown command"⟩, s)

/-- A scripted git: replay a result list in order (exhaustion yields a
generic failure), logging every invocation with its result. -/
def scriptExec (s : List GitResult × List (List String × GitResult))
    (args : List String) :
    GitResult × (List GitResult × List (List String × GitResult)) :=
  match s.1 with
  | r :: rest => (r, (rest, s.2 ++ [(args, r)]))
  | [] => (⟨1, "", ""⟩, ([], s.2 ++ [(args, ⟨1, "", ""⟩)]))

/-- The token events one content block of an `assistant` line yields: one
per dict block of type `text`, none otherwise. -/
def blockTokens (mid : Json) (b : Json) : List Event :=
  match b with
  | .obj kvs =>
    if jsonEqStr (dictGet kvs "type" .null) "text" then
      [Event.token (dictGet kvs "text" (.str "")) mid]
    else []
  | _ => []

/-- Replace the character at index `i` of a string. -/
def setCharAt (s : String) (i : Nat) (c : Char) : String := ⟨s.data.set i c⟩

/-! ### Library lemmas: splitting -/

theorem splitList_of_not_mem (sep : Char) (l : List Char) (h : sep ∉ l) :
    splitList sep l = [l] := by
  induction l with
  | nil => rfl
  | cons c cs ih =>
    have hc : (c == sep) = false := by
      simp only [List.mem_cons, not_or] at h
      exact beq_eq_false_iff_ne.mpr (fun hcc => h.1 hcc.symm)
    rw [splitList, hc]
    simp only [Bool.false_eq_true, if_false]
    rw [ih (fun hx => h (List.mem_cons_of_mem _ hx))]

theorem splitList_append (sep : Char) (a b : List Char) (h : sep ∉ a) :
    splitList sep (a ++ sep :: b) = a :: splitList sep b := by
  induction a with
  | nil => simp [splitList]
  | cons c cs ih =>
    have hc : (c == sep) = false := by
      simp only [List.mem_cons, not_or] at h
      exact beq_eq_false_iff_ne.mpr (fun hcc => h.1 hcc.symm)
    have ih2 := ih (fun hx => h (List.mem_cons_of_mem _ hx))
    simp only [List.cons_append, splitList, hc, Bool.false_eq_true, if_false,
      List.append_eq, ih2]

theorem splitList_ne_nil (sep : Char) (l : List Char) : splitList sep l ≠ [] := by
  cases l with
  | nil => simp [splitList]
  | cons c cs =>
    rw [splitList]
    by_cases hc : (c == sep) = true
    · simp [hc]
    · simp only [hc, if_false]
      cases hs : splitList sep cs with
      | nil => simp
      | cons r rs => simp

theorem splitList_len_ge_two (sep : Char) (l : List Char) (h : sep ∈ l) :
    2 ≤ (splitList sep l).length := by
  induction l with
  | nil => cases h
  | cons c cs ih =>
    rw [splitList]
    by_cases hc : (c == sep) = true
    · simp only [hc, if_true, List.length_cons]
      have h1 : 1 ≤ (splitList sep cs).length := by
        cases hs : splitList sep cs with
        | nil => exact absurd hs (splitList_ne_nil sep cs)
        | cons r rs => simp
      omega
    · have hmem : sep ∈ cs := by
        rcases List.mem_cons.mp h with h1 | h2
        · exact absurd (beq_iff_eq.mpr h1.symm) (by simp [hc])
        · exact h2
      have h2 := ih hmem
      simp only [hc, if_false]
      cases hs : splitList sep cs with
      | nil => exact absurd hs (splitList_ne_nil sep cs)
      | cons r rs =>
        rw [hs] at h2
        simpa using h2

/-! ### Library lemmas: digits y decimal round-trip -/

theorem digitChar_facts (d : Nat) (h : d < 10) :
    isDigitChar (digitChar d) = true ∧ charVal (digitChar d) = d ∧
    digitChar d ≠ '.' ∧ isPySpace (digitChar d) = false ∧
    (digitChar d == '+') = false ∧ (digitChar d == '-') = false ∧
    (digitChar d == '_') = false := by
  interval_cases d <;> refine ⟨by decide, by decide, by decide, by decide, by decide, by decide, by decide⟩

theorem natDigitsAux_mem (fuel : Nat) : ∀ (n : Nat) (c : Char),
    c ∈ natDigitsAux fuel n → ∃ d, d < 10 ∧ c = digitChar d := by
  induction fuel with
  | zero => intro n c hc; cases hc
  | succ f ih =>
    intro n c hc
    rw [natDigitsAux] at hc
    by_cases hn : n = 0
    · rw [if_pos hn] at hc; cases hc
    · rw [if_neg hn] at hc
      rcases List.mem_append.mp hc with h1 | h2
      · exact ih _ c h1
      · exact ⟨n % 10, Nat.mod_lt _ (by norm_num), by simpa using h2⟩

theorem natDigitsAux_val (fuel : Nat) : ∀ n : Nat, n ≤ fuel →
    (natDigitsAux fuel n).foldl (fun a x => 10 * a + charVal x) 0 = n := by
  induction fuel with
  | zero => intro n h; interval_cases n; rfl
  | succ f ih =>
    intro n h
    rw [natDigitsAux]
    by_cases hn : n = 0
    · rw [if_pos hn]; simp [hn]
    · rw [if_neg hn]
      rw [List.foldl_append]
      have hdiv : n / 10 ≤ f := by
        have := Nat.div_lt_self (Nat.pos_of_ne_zero hn) (by norm_num : 1 < 10)
        omega
      rw [ih _ hdiv]
      have hval := (digitChar_facts (n % 10) (Nat.mod_lt _ (by norm_num))).2.1
      simp only [List.foldl_cons, List.foldl_nil, hval]
      omega

theorem natDigitsAux_ne_nil (fuel n : Nat) (hn : n ≠ 0) (hf : n ≤ fuel) :
    natDigitsAux fuel n ≠ [] := by
  cases fuel with
  | zero => omega
  | succ f =>
    rw [natDigitsAux, if_neg hn]
    simp

theorem natRepr_mem (n : Nat) (c : Char) (hc : c ∈ (natRepr n).data) :
    ∃ d, d < 10 ∧ c = digitChar d := by
  unfold natRepr at hc
  by_cases hn : n = 0
  · rw [if_pos hn] at hc
    have hc0 : c = '0' := by simpa using hc
    exact ⟨0, by norm_num, by rw [hc0]; rfl⟩
  · rw [if_neg hn] at hc
    exact natDigitsAux_mem n n c hc

theorem natRepr_no_dot (n : Nat) : '.' ∉ (natRepr n).data := by
  intro hmem
  obtain ⟨d, hd, hc⟩ := natRepr_mem n _ hmem
  exact (digitChar_facts d hd).2.2.1 hc.symm

theorem dropWhile_all_false (p : Char → Bool) (l : List Char)
    (h : ∀ c ∈ l, p c = false) : l.dropWhile p = l := by
  cases l with
  | nil => rfl
  | cons c t => simp [List.dropWhile_cons, h c (List.mem_cons_self c t)]

theorem stripWS_all_not (l : List Char) (h : ∀ c ∈ l, isPySpace c = false) :
    stripWS l = l := by
  unfold stripWS
  rw [dropWhile_all_false _ _ h, dropWhile_all_false, List.reverse_reverse]
  intro c hc
  exact h c (by simpa using hc)

theorem pyIntDigits_digits (l : List Char) : ∀ acc : Nat,
    (∀ c ∈ l, ∃ d, d < 10 ∧ c = digitChar d) →
    pyIntDigits acc l = some (l.foldl (fun a x => 10 * a + charVal x) acc) := by
  induction l with
  | nil => intro acc _; rfl
  | cons c t ih =>
    intro acc h
    obtain ⟨d, hd, hc⟩ := h c (List.mem_cons_self c t)
    obtain ⟨hdig, _, _, _, _, _, hund⟩ := digitChar_facts d hd
    subst hc
    rw [pyIntDigits.eq_def]
    simp only [hund, Bool.false_eq_true, if_false, hdig, if_true]
    rw [ih _ (fun x hx => h x (List.mem_cons_of_mem _ hx))]
    simp [List.foldl_cons]

theorem pyInt_natRepr (n : Nat) : pyInt (natRepr n) = some ((n : Nat) : Int) := by
  by_cases hn : n = 0
  · subst hn; decide
  · have hmem : ∀ c ∈ (natRepr n).data, ∃ d, d < 10 ∧ c = digitChar d :=
      fun c hc => natRepr_mem n c hc
    have hall : ∀ c ∈ (natRepr n).data, isPySpace c = false := fun c hc => by
      obtain ⟨d, hd, hcd⟩ := hmem c hc
      rw [hcd]
      exact (digitChar_facts d hd).2.2.2.1
    unfold pyInt
    rw [stripWS_all_not _ hall]
    have hdata : (natRepr n).data = natDigitsAux n n := by
      unfold natRepr
      rw [if_neg hn]
    cases hcase : (natRepr n).data with
    | nil =>
      exact absurd (hdata ▸ hcase) (natDigitsAux_ne_nil n n hn le_rfl)
    | cons c rest =>
      obtain ⟨d, hd, hc⟩ := hmem c (hcase ▸ List.mem_cons_self c rest)
      obtain ⟨hdig, _, _, _, hplus, hminus, _⟩ := digitChar_facts d hd
      rw [hc]
      simp only [hplus, hminus, Bool.false_eq_true, if_false]
      rw [← hc]
      have hrest : ∀ x ∈ rest, ∃ d2, d2 < 10 ∧ x = digitChar d2 := fun x hx =>
        hmem x (hcase ▸ List.mem_cons_of_mem _ hx)
      have hcore : pyIntCore (c :: rest) = some n := by
        rw [hc]
        simp only [pyIntCore, hdig, if_true]
        rw [← hc]
        rw [pyIntDigits_digits rest (charVal c) hrest]
        have hfold : (c :: rest).foldl (fun a x => 10 * a + charVal x) 0 = n := by
          rw [← hcase, hdata]
          exact natDigitsAux_val n n le_rfl
        rw [List.foldl_cons] at hfold
        simp only [Nat.mul_zero, Nat.zero_add] at hfold
        rw [hfold]
      rw [hcore]
      rfl

/-! ### Library lemmas: hex digests -/

theorem hexChar_ne_dot (d : Nat) : hexChar d ≠ '.' := by
  unfold hexChar
  by_cases h : d < 16
  · interval_cases d <;> decide
  · rw [List.getD_eq_default]
    · decide
    · simp only [not_lt] at h
      calc ("0123456789abcdef" : String).data.length = 16 := by decide
        _ ≤ d := h

theorem bytesToHex_ne_dot (bs : List Nat) (c : Char) (hc : c ∈ bytesToHex bs) :
    c ≠ '.' := by
  unfold bytesToHex at hc
  rw [List.mem_flatMap] at hc
  obtain ⟨b, _, hcb⟩ := hc
  rcases List.mem_cons.mp hcb with h1 | h2
  · exact h1 ▸ hexChar_ne_dot _
  · have : c = hexChar (b % 16) := by simpa using h2
    exact this ▸ hexChar_ne_dot _

theorem bytesToHex_length (bs : List Nat) : (bytesToHex bs).length = 2 * bs.length := by
  induction bs with
  | nil => rfl
  | cons b t ih =>
    simp only [bytesToHex, List.flatMap_cons, List.length_append, List.length_cons,
      List.length_nil, List.length_cons] at ih ⊢
    omega

theorem sha256_length (m : List Nat) : (sha256 m).length = 32 := by
  unfold sha256
  simp [wordBytes]

theorem hmacSha256_length (k m : List Nat) : (hmacSha256 k m).length = 32 := by
  unfold hmacSha256
  exact sha256_length _

theorem hmacHex_length (s m : String) : (hmacSha256Hex s m).data.length = 64 := by
  show (bytesToHex (hmacSha256 (strBytes s) (strBytes m))).length = 64
  rw [bytesToHex_length, hmacSha256_length]

theorem hmacHex_ne_dot (s m : String) (c : Char) (hc : c ∈ (hmacSha256Hex s m).data) :
    c ≠ '.' :=
  bytesToHex_ne_dot _ c hc

theorem hmacHex_no_dot (s m : String) : '.' ∉ (hmacSha256Hex s m).data :=
  fun hc => hmacHex_ne_dot s m '.' hc rfl

theorem empty_ne_hmacHex (s m : String) : "" ≠ hmacSha256Hex s m := by
  intro h
  have hlen : ("" : String).data.length = (hmacSha256Hex s m).data.length :=
    congrArg (fun x => x.data.length) h
  rw [hmacHex_length] at hlen
  simp at hlen

theorem hmacHex_getD_ne_dot (s m : String) (i : Nat) (hi : i < 64) :
    (hmacSha256Hex s m).data.getD i ' ' ≠ '.' := by
  have hlen := hmacHex_length s m
  have hlt : i < (hmacSha256Hex s m).data.length := by omega
  rw [List.getD_eq_getElem _ _ hlt]
  exact hmacHex_ne_dot s m _ (List.getElem_mem hlt)

theorem setCharAt_ne (s : String) (i : Nat) (c : Char) (hi : i < s.data.length)
    (hc : c ≠ s.data.getD i ' ') : setCharAt s i c ≠ s := by
  intro h
  have hdata : s.data.set i c = s.data := congrArg String.data h
  have hlt : i < (s.data.set i c).length := by simpa using hi
  have h1 : (s.data.set i c).getD i ' ' = c := by
    rw [List.getD_eq_getElem _ _ hlt]
    exact List.getElem_set_self hlt
  rw [hdata] at h1
  exact hc h1.symm

/-! ### Token verification lemmas -/

theorem pySplit_token (a b : String) (ha : '.' ∉ a.data) (hb : '.' ∉ b.data) :
    pySplit '.' (a ++ "." ++ b) = [a, b] := by
  unfold pySplit
  have hdot : ("." : String).data = ['.'] := rfl
  rw [String.data_append, String.data_append, hdot, List.append_assoc,
    List.singleton_append, splitList_append '.' a.data b.data ha,
    splitList_of_not_mem '.' b.data hb]
  rfl

theorem verify_many_parts (token secret : String) (maxAge now : Int)
    (h : (pySplit '.' token).length ≠ 2) :
    App.verify_internal_token token secret maxAge now = false := by
  unfold App.verify_internal_token App.verify_body
  cases hp : pySplit '.' token with
  | nil => rfl
  | cons a rest =>
    cases rest with
    | nil => rfl
    | cons b rest2 =>
      cases rest2 with
      | nil => exact absurd (by rw [hp]; rfl) h
      | cons c rest3 => rfl

theorem verify_sig_check (secret tsStr sig : String) (maxAge now ts : Int)
    (hts : '.' ∉ tsStr.data) (hsig : '.' ∉ sig.data)
    (hparse : pyInt tsStr = some ts) (hage : ¬now - ts > maxAge) :
    App.verify_internal_token (tsStr ++ "." ++ sig) secret maxAge now =
      compare_digest sig (hmacSha256Hex secret tsStr) := by
  unfold App.verify_internal_token App.verify_body
  rw [pySplit_token tsStr sig hts hsig]
  simp only [hparse]
  simp [hage]

theorem verify_expired_general (secret tsStr sig : String) (maxAge now ts : Int)
    (hts : '.' ∉ tsStr.data) (hsig : '.' ∉ sig.data)
    (hparse : pyInt tsStr = some ts) (hage : now - ts > maxAge) :
    App.verify_internal_token (tsStr ++ "." ++ sig) secret maxAge now = false := by
  unfold App.verify_internal_token App.verify_body
  rw [pySplit_token tsStr sig hts hsig]
  simp only [hparse]
  simp [hage]

theorem verify_generate_ok (secret : String) (t : Nat) (maxAge now : Int)
    (h : now - (t : Int) ≤ maxAge) :
    App.verify_internal_token (App.generate_internal_token secret t) secret maxAge now = true := by
  show App.verify_internal_token
    (natRepr t ++ "." ++ hmacSha256Hex secret (natRepr t)) secret maxAge now = true
  rw [verify_sig_check secret (natRepr t) (hmacSha256Hex secret (natRepr t)) maxAge now
    ((t : Nat) : Int) (natRepr_no_dot t) (hmacHex_no_dot secret (natRepr t)) (pyInt_natRepr t)
    (by omega)]
  simp [compare_digest]

theorem verify_generate_expired (secret : String) (t : Nat) (maxAge now : Int)
    (h : now - (t : Int) > maxAge) :
    App.verify_internal_token (App.generate_internal_token secret t) secret maxAge now = false := by
  show App.verify_internal_token
    (natRepr t ++ "." ++ hmacSha256Hex secret (natRepr t)) secret maxAge now = false
  exact verify_expired_general secret (natRepr t) (hmacSha256Hex secret (natRepr t)) maxAge now
    ((t : Nat) : Int) (natRepr_no_dot t) (hmacHex_no_dot secret (natRepr t)) (pyInt_natRepr t)
    (by omega)

theorem verify_wrong_sig (secret : String) (t : Nat) (maxAge now : Int) (sig : String)
    (hne : sig ≠ hmacSha256Hex secret (natRepr t)) :
    App.verify_internal_token (natRepr t ++ "." ++ sig) secret maxAge now = false := by
  by_cases hdot : '.' ∈ sig.data
  · apply verify_many_parts
    unfold pySplit
    have hd : ("." : String).data = ['.'] := rfl
    rw [String.data_append, String.data_append, hd, List.append_assoc,
      List.singleton_append, splitList_append '.' _ _ (natRepr_no_dot t)]
    have h2 := splitList_len_ge_two '.' sig.data hdot
    simp only [List.length_map, List.length_cons]
    omega
  · by_cases hage : now - ((t : Nat) : Int) > maxAge
    · exact verify_expired_general secret (natRepr t) sig maxAge now (Int.ofNat t)
        (natRepr_no_dot t) hdot (pyInt_natRepr t) hage
    · rw [verify_sig_check secret (natRepr t) sig maxAge now (Int.ofNat t)
        (natRepr_no_dot t) hdot (pyInt_natRepr t) hage]
      exact beq_eq_false_iff_ne.mpr hne

/-! ### Claims about the token helpers -/

/-- Claim C1: a token minted by `generate_internal_token` at timestamp `t`
verifies true under `verify_internal_token` when `now - t ≤ maxAge`,
verifies false when `now - t > maxAge`, verifies false under any signature
other than the genuine one, and in particular verifies false when any
single character of the hex signature is altered. -/
theorem c1_mint_verify_roundtrip (secret : String) (t : Nat) (maxAge now : Int) :
    (now - (t : Int) ≤ maxAge →
      App.verify_internal_token (App.generate_internal_token secret t) secret maxAge now = true)
    ∧ (now - (t : Int) > maxAge →
      App.verify_internal_token (App.generate_internal_token secret t) secret maxAge now = false)
    ∧ (∀ sig : String, sig ≠ hmacSha256Hex secret (natRepr t) →
      App.verify_internal_token (natRepr t ++ "." ++ sig) secret maxAge now = false)
    ∧ (∀ (i : Nat) (c : Char), i < 64 →
      c ≠ (hmacSha256Hex secret (natRepr t)).data.getD i ' ' →
      App.verify_internal_token
        (natRepr t ++ "." ++ setCharAt (hmacSha256Hex secret (natRepr t)) i c)
        secret maxAge now = false) := by
  refine ⟨verify_generate_ok secret t maxAge now,
    verify_generate_expired secret t maxAge now,
    verify_wrong_sig secret t maxAge now, ?_⟩
  intro i c hi hc
  apply verify_wrong_sig secret t maxAge now
  apply setCharAt_ne
  · rw [hmacHex_length]; exact hi
  · exact hc

/-- Witness for C1: a concrete secret and timestamp, exercising the
fresh-token, expired-token and altered-signature branches. -/
theorem c1_mint_verify_roundtrip_witness :
    App.verify_internal_token (App.generate_internal_token "k" 0) "k" 300000 0 = true
    ∧ App.verify_internal_token (App.generate_internal_token "k" 0) "k" 300000 600000 = false
    ∧ App.verify_internal_token (natRepr 0 ++ "." ++ "") "k" 300000 0 = false
    ∧ App.verify_internal_token
        (natRepr 0 ++ "." ++ setCharAt (hmacSha256Hex "k" (natRepr 0)) 0 '.') "k" 300000 0 =
        false :=
  ⟨(c1_mint_verify_roundtrip "k" 0 300000 0).1 (by decide),
   (c1_mint_verify_roundtrip "k" 0 300000 600000).2.1 (by decide),
   (c1_mint_verify_roundtrip "k" 0 300000 0).2.2.1 "" (empty_ne_hmacHex "k" (natRepr 0)),
   (c1_mint_verify_roundtrip "k" 0 300000 0).2.2.2 0 '.' (by decide)
     (Ne.symm (hmacHex_getD_ne_dot "k" (natRepr 0) 0 (by decide)))⟩

/-- Claim C6: `verify_internal_token` fails closed on malformed input — a
token that does not split into exactly two dot-separated parts, or whose
first part is not a Python integer literal, yields `false` (the
`ValueError` of `int` is caught by the surrounding handler). -/
theorem c6_verify_fails_closed (token secret : String) (maxAge now : Int)
    (h : (pySplit '.' token).length ≠ 2 ∨ pyInt ((pySplit '.' token).headD "") = none) :
    App.verify_internal_token token secret maxAge now = false := by
  rcases h with h1 | h2
  · exact verify_many_parts token secret maxAge now h1
  · by_cases hl : (pySplit '.' token).length = 2
    · unfold App.verify_internal_token App.verify_body
      cases hp : pySplit '.' token with
      | nil => rfl
      | cons a rest =>
        cases rest with
        | nil => rfl
        | cons b rest2 =>
          cases rest2 with
          | nil =>
            rw [hp] at h2
            simp only [List.headD_cons] at h2
            simp only [h2]
          | cons c rest3 => rfl
    · exact verify_many_parts token secret maxAge now hl

/-- Witness for C6: a dotless token and a token with a non-numeric
timestamp both verify false. -/
theorem c6_verify_fails_closed_witness :
    App.verify_internal_token "notatoken" "secret" 300000 0 = false
    ∧ App.verify_internal_token "abc.def" "secret" 300000 0 = false :=
  ⟨c6_verify_fails_closed "notatoken" "secret" 300000 0 (Or.inl (by decide)),
   c6_verify_fails_closed "abc.def" "secret" 300000 0 (Or.inr (by decide))⟩

/-- Claim C9: a well-formed token with a valid signature whose timestamp
lies arbitrarily far in the future verifies true — the age check only
rejects `now - timestamp > maxAge`, so a future timestamp (with a
non-negative `maxAge`) is never rejected for age. -/
theorem c9_future_timestamp_accepted (secret : String) (t : Nat) (maxAge now : Int)
    (hfut : now ≤ (t : Int)) (hage : 0 ≤ maxAge) :
    App.verify_internal_token (App.generate_internal_token secret t) secret maxAge now = true :=
  verify_generate_ok secret t maxAge now (by omega)

/-- Witness for C9: a token minted a million seconds in the future of
`now = 0` verifies true despite the 5-minute max age. -/
theorem c9_future_timestamp_accepted_witness :
    App.verify_internal_token (App.generate_internal_token "k" 1000000000) "k" 300000 0 = true :=
  c9_future_timestamp_accepted "k" 1000000000 300000 0 (by decide) (by decide)

/-- Claim C10: the token helpers duplicated in `packages/sandbox/app.py`
and `packages/sandbox/sandbox/app.py` are extensionally equal: both
`generate_internal_token`s and both `verify_internal_token`s agree on
every input and clock value. -/
theorem c10_duplicated_drafts_equal :
    (∀ (secret : String) (t : Nat),
      App.generate_internal_token secret t = SandboxApp.generate_internal_token secret t)
    ∧ (∀ (token secret : String) (maxAge now : Int),
      App.verify_internal_token token secret maxAge now =
        SandboxApp.verify_internal_token token secret maxAge now) :=
  ⟨fun _ _ => rfl, fun _ _ _ _ => rfl⟩

/-! ### Claim C5: `EventEmitter.emit` -/

/-- Claim C5: for every event type, payload and message id, and for any
failure of the bridge send or of the HTTP POST, `EventEmitter.emit`
returns normally — every transport failure is caught — attempting the
attached connected bridge first and falling back to the HTTP event-ingest
POST when no connected bridge is attached or the bridge send raises. -/
theorem c5_emit_never_raises (eventId eventType : String) (ts : Nat)
    (data messageId : Json) (bs bc : Bool) (sb hp : Except PyExc Unit) :
    (∃ o, EventEmitter.emit (build_event eventId eventType ts data messageId) bs bc sb hp =
      .ok o)
    ∧ (bs = true → bc = true → sb = .ok () →
        EventEmitter.emit (build_event eventId eventType ts data messageId) bs bc sb hp =
          .ok (.viaBridge, build_event eventId eventType ts data messageId))
    ∧ ((bs && bc) = false →
        EventEmitter.emit (build_event eventId eventType ts data messageId) bs bc sb hp =
          .ok ((match hp with | .ok _ => .viaHttp | .error _ => .dropped),
            build_event eventId eventType ts data messageId))
    ∧ (∀ e, sb = .error e →
        EventEmitter.emit (build_event eventId eventType ts data messageId) bs bc sb hp =
          .ok ((match hp with | .ok _ => .viaHttp | .error _ => .dropped),
            build_event eventId eventType ts data messageId)) := by
  refine ⟨?_, ?_, ?_, ?_⟩
  · cases bs <;> cases bc <;> cases sb <;> cases hp <;> exact ⟨_, rfl⟩
  · intro h1 h2 h3
    subst h1; subst h2; subst h3
    rfl
  · intro h
    cases hp <;> simp [EventEmitter.emit, h]
  · intro e he
    subst he
    cases bs <;> cases bc <;> cases hp <;> rfl

/-- Witness for C5: concrete transport outcomes — connected bridge with a
failing HTTP sink delivers via the bridge; no bridge and a failing POST
drops the event but still returns; a raising bridge send falls back to a
working POST. -/
theorem c5_emit_never_raises_witness :
    EventEmitter.emit (build_event "id0" "token" 7 (Json.obj []) Json.null)
        true true (.ok ()) (.error .valueError) =
        .ok (.viaBridge, build_event "id0" "token" 7 (Json.obj []) Json.null)
    ∧ EventEmitter.emit (build_event "id0" "token" 7 (Json.obj []) Json.null)
        false false (.error .typeError) (.error .valueError) =
        .ok (.dropped, build_event "id0" "token" 7 (Json.obj []) Json.null)
    ∧ EventEmitter.emit (build_event "id0" "token" 7 (Json.obj []) Json.null)
        true true (.error .typeError) (.ok ()) =
        .ok (.viaHttp, build_event "id0" "token" 7 (Json.obj []) Json.null) :=
  ⟨(c5_emit_never_raises "id0" "token" 7 (Json.obj []) Json.null true true
      (.ok ()) (.error .valueError)).2.1 rfl rfl rfl,
   (c5_emit_never_raises "id0" "token" 7 (Json.obj []) Json.null false false
      (.error .typeError) (.error .valueError)).2.2.1 rfl,
   (c5_emit_never_raises "id0" "token" 7 (Json.obj []) Json.null true true
      (.error .typeError) (.ok ())).2.2.2 .typeError rfl⟩

/-! ### Runner classification lemmas -/

theorem emitTextBlocks_wf (mid : Json) (blocks : List Json)
    (h : ∀ b ∈ blocks, ∃ kvs, b = Json.obj kvs) :
    ClaudeRunner.emitTextBlocks mid blocks = .ok (blocks.flatMap (blockTokens mid)) := by
  induction blocks with
  | nil => rfl
  | cons b t ih =>
    obtain ⟨kvs, hb⟩ := h b (List.mem_cons_self b t)
    subst hb
    have ih2 := ih (fun x hx => h x (List.mem_cons_of_mem _ hx))
    rw [ClaudeRunner.emitTextBlocks, ih2]
    by_cases ht : jsonEqStr (dictGet kvs "type" Json.null) "text" = true <;>
      simp [pyGetAttr, blockTokens, ht]

theorem emitTextBlocks_mem (mid : Json) (blocks : List Json) : ∀ (evs : List Event),
    ClaudeRunner.emitTextBlocks mid blocks = .ok evs →
    ∀ e ∈ evs, e.isComplete = false ∧ e.mid = mid := by
  induction blocks with
  | nil =>
    intro evs h e he
    rw [ClaudeRunner.emitTextBlocks] at h
    cases h
    cases he
  | cons b t ih =>
    intro evs h e he
    rw [ClaudeRunner.emitTextBlocks] at h
    repeat' split at h
    all_goals try exact ih evs h e he
    all_goals cases h
    all_goals rcases List.mem_cons.mp he with h1 | h2
    all_goals first
      | (subst h1; exact ⟨rfl, rfl⟩)
      | exact ih _ (by assumption) e h2

theorem process_output_line_mem (parsed : Option Json) (line : String) (mid : Json)
    (evs : List Event) (h : ClaudeRunner.process_output_line parsed line mid = .ok evs) :
    ∀ e ∈ evs, e.isComplete = false ∧ e.mid = mid := by
  intro e he
  unfold ClaudeRunner.process_output_line at h
  repeat' split at h
  all_goals try exact emitTextBlocks_mem mid _ evs h e he
  all_goals cases h
  all_goals simp only [List.mem_singleton, List.not_mem_nil] at he
  all_goals subst he
  all_goals exact ⟨rfl, rfl⟩

theorem readStdout_mem (jp : String → Option Json) (mid : Json) (raws : List String) :
    ∀ e ∈ (ClaudeRunner.readStdout jp mid raws).2.1, e.isComplete = false ∧ e.mid = mid := by
  induction raws with
  | nil => intro e he; cases he
  | cons raw rest ih =>
    intro e he
    rw [ClaudeRunner.readStdout] at he
    by_cases hempty : (pyStrip raw).isEmpty = true
    · rw [if_pos hempty] at he
      exact ih e he
    · rw [if_neg hempty] at he
      cases hp : ClaudeRunner.process_output_line (jp (pyStrip raw)) (pyStrip raw) mid with
      | error er => rw [hp] at he; cases he
      | ok evs =>
        rw [hp] at he
        rcases List.mem_append.mp he with h1 | h2
        · exact process_output_line_mem _ _ _ evs hp e h1
        · exact ih e h2

theorem readStdout_events (jp : String → Option Json) (mid : Json) (raws : List String)
    (h : ∀ raw ∈ raws, ∃ evs,
      ClaudeRunner.process_output_line (jp (pyStrip raw)) (pyStrip raw) mid = .ok evs) :
    (ClaudeRunner.readStdout jp mid raws).2.1 =
      ((raws.map pyStrip).filter (fun l => !l.isEmpty)).flatMap
        (ClaudeRunner.lineEventsOk jp mid) := by
  induction raws with
  | nil => rfl
  | cons raw rest ih =>
    have ih2 := ih (fun x hx => h x (List.mem_cons_of_mem _ hx))
    rw [ClaudeRunner.readStdout]
    by_cases hempty : (pyStrip raw).isEmpty = true
    · rw [if_pos hempty]
      rw [ih2]
      simp [List.filter_cons, hempty]
    · obtain ⟨evs, hevs⟩ := h raw (List.mem_cons_self raw rest)
      rw [if_neg hempty]
      rw [hevs]
      simp only [List.map_cons, List.filter_cons]
      have hkeep : (!(pyStrip raw).isEmpty) = true := by
        simp [Bool.not_eq_true] at hempty ⊢
        exact hempty
      rw [hkeep]
      simp only [if_true, List.flatMap_cons]
      rw [← ih2]
      have hlok : ClaudeRunner.lineEventsOk jp mid (pyStrip raw) = evs := by
        unfold ClaudeRunner.lineEventsOk
        rw [hevs]
      rw [hlok]

/-! ### Claim C2: per-line classification of agent output -/

/-- Counterexample to claim C2 as stated: the valid JSON line
`{"type": "system"}` — a type the classifier does not recognise — yields
zero events, not exactly one: such a line is dropped silently. -/
theorem c2_counterexample :
    ClaudeRunner.process_output_line (some (Json.obj [("type", Json.str "system")]))
      "x" Json.null = .ok ([] : List Event)
    ∧ ([] : List Event).length ≠ 1 :=
  ⟨rfl, by decide⟩

/-- Claim C2 (amended): a line that fails JSON decoding is emitted as
exactly one token event carrying the raw line; a decoded object is
classified by its `type` discriminator — `tool_use`, `tool_result` and
`error` each yield exactly one corresponding event, `assistant` yields one
token event per `text` block of its message content (possibly zero or
several), and an object of any other type yields no event at all (the
line is dropped); the whole stream's events are the in-order
concatenation of the per-line events. -/
theorem c2_line_classification (line : String) (mid : Json) (kvs : List (String × Json)) :
    (ClaudeRunner.process_output_line none line mid = .ok [Event.token (.str line) mid])
    ∧ (dictGet kvs "type" Json.null = .str "tool_use" →
        ClaudeRunner.process_output_line (some (.obj kvs)) line mid =
          .ok [Event.toolCall (dictGet kvs "name" (.str "unknown"))
            (dictGet kvs "input" (.obj [])) mid])
    ∧ (dictGet kvs "type" Json.null = .str "tool_result" →
        ClaudeRunner.process_output_line (some (.obj kvs)) line mid =
          .ok [Event.toolResult (dictGet kvs "name" (.str "unknown"))
            (dictGet kvs "output" .null)
            (if pyTruthy (dictGet kvs "error" .null) then some (dictGet kvs "error" .null)
             else none) mid])
    ∧ (dictGet kvs "type" Json.null = .str "error" →
        ClaudeRunner.process_output_line (some (.obj kvs)) line mid =
          .ok [Event.error (dictGet kvs "error" (.str "Unknown error")) mid])
    ∧ (∀ (mkvs : List (String × Json)) (blocks : List Json),
        dictGet kvs "type" Json.null = .str "assistant" →
        dictGet kvs "message" (.obj []) = .obj mkvs →
        dictGet mkvs "content" (.arr []) = .arr blocks →
        (∀ b ∈ blocks, ∃ bk, b = Json.obj bk) →
        ClaudeRunner.process_output_line (some (.obj kvs)) line mid =
          .ok (blocks.flatMap (blockTokens mid)))
    ∧ (jsonEqStr (dictGet kvs "type" Json.null) "assistant" = false →
       jsonEqStr (dictGet kvs "type" Json.null) "tool_use" = false →
       jsonEqStr (dictGet kvs "type" Json.null) "tool_result" = false →
       jsonEqStr (dictGet kvs "type" Json.null) "error" = false →
        ClaudeRunner.process_output_line (some (.obj kvs)) line mid = .ok [])
    ∧ (∀ (jp : String → Option Json) (raws : List String),
        (∀ raw ∈ raws, ∃ evs,
          ClaudeRunner.process_output_line (jp (pyStrip raw)) (pyStrip raw) mid = .ok evs) →
        (ClaudeRunner.readStdout jp mid raws).2.1 =
          ((raws.map pyStrip).filter (fun l => !l.isEmpty)).flatMap
            (ClaudeRunner.lineEventsOk jp mid)) := by
  refine ⟨rfl, ?_, ?_, ?_, ?_, ?_, ?_⟩
  · intro h
    unfold ClaudeRunner.process_output_line
    simp [pyGetAttr, h, jsonEqStr]
  · intro h
    unfold ClaudeRunner.process_output_line
    simp [pyGetAttr, h, jsonEqStr]
  · intro h
    unfold ClaudeRunner.process_output_line
    simp [pyGetAttr, h, jsonEqStr]
  · intro mkvs blocks h1 h2 h3 hwf
    unfold ClaudeRunner.process_output_line
    simp only [pyGetAttr, h1, h2, h3]
    simp only [jsonEqStr]
    rw [emitTextBlocks_wf mid blocks hwf]
    simp
  · intro h1 h2 h3 h4
    unfold ClaudeRunner.process_output_line
    simp [pyGetAttr, h1, h2, h3, h4]
  · intro jp raws hok
    exact readStdout_events jp mid raws hok

/-- Witness for C2: concrete lines of each classification — a raw
non-JSON line, a tool_use line, a tool_result line, an error line, an
assistant line with one text block and one non-text block, an unknown
`system` line, and a three-line stream (one line blank) processed in
order. -/
theorem c2_line_classification_witness :
    ClaudeRunner.process_output_line none "hello" Json.null =
      .ok [Event.token (.str "hello") Json.null]
    ∧ ClaudeRunner.process_output_line
        (some (.obj [("type", Json.str "tool_use"), ("name", Json.str "Bash"),
          ("input", Json.obj [])])) "x" Json.null =
        .ok [Event.toolCall (.str "Bash") (.obj []) Json.null]
    ∧ ClaudeRunner.process_output_line
        (some (.obj [("type", Json.str "tool_result"), ("name", Json.str "Bash"),
          ("output", Json.str "ok")])) "x" Json.null =
        .ok [Event.toolResult (.str "Bash") (.str "ok") none Json.null]
    ∧ ClaudeRunner.process_output_line
        (some (.obj [("type", Json.str "error"), ("error", Json.str "boom")])) "x" Json.null =
        .ok [Event.error (.str "boom") Json.null]
    ∧ ClaudeRunner.process_output_line
        (some (.obj [("type", Json.str "assistant"),
          ("message", Json.obj [("content", Json.arr
            [Json.obj [("type", Json.str "text"), ("text", Json.str "done")],
             Json.obj [("type", Json.str "thinking")]])])])) "x" Json.null =
        .ok [Event.token (.str "done") Json.null]
    ∧ ClaudeRunner.process_output_line
        (some (.obj [("type", Json.str "system")])) "x" Json.null = .ok []
    ∧ (ClaudeRunner.readStdout (fun _ => none) Json.null ["tick", "  ", "tock"]).2.1 =
        (((["tick", "  ", "tock"].map pyStrip).filter (fun l => !l.isEmpty)).flatMap
          (ClaudeRunner.lineEventsOk (fun _ => none) Json.null)) :=
  ⟨(c2_line_classification "hello" Json.null []).1,
   (c2_line_classification "x" Json.null
      [("type", Json.str "tool_use"), ("name", Json.str "Bash"),
       ("input", Json.obj [])]).2.1 rfl,
   (c2_line_classification "x" Json.null
      [("type", Json.str "tool_result"), ("name", Json.str "Bash"),
       ("output", Json.str "ok")]).2.2.1 rfl,
   (c2_line_classification "x" Json.null
      [("type", Json.str "error"), ("error", Json.str "boom")]).2.2.2.1 rfl,
   (c2_line_classification "x" Json.null
      [("type", Json.str "assistant"),
       ("message", Json.obj [("content", Json.arr
         [Json.obj [("type", Json.str "text"), ("text", Json.str "done")],
          Json.obj [("type", Json.str "thinking")]])])]).2.2.2.2.1
      [("content", Json.arr
         [Json.obj [("type", Json.str "text"), ("text", Json.str "done")],
          Json.obj [("type", Json.str "thinking")]])]
      [Json.obj [("type", Json.str "text"), ("text", Json.str "done")],
       Json.obj [("type", Json.str "thinking")]]
      rfl rfl rfl
      (by
        intro b hb
        simp only [List.mem_cons, List.not_mem_nil, or_false] at hb
        rcases hb with rfl | rfl
        · exact ⟨_, rfl⟩
        · exact ⟨_, rfl⟩),
   (c2_line_classification "x" Json.null
      [("type", Json.str "system")]).2.2.2.2.2.1 rfl rfl rfl rfl,
   (c2_line_classification "x" Json.null []).2.2.2.2.2.2 (fun _ => none)
      ["tick", "  ", "tock"] (fun _ _ => ⟨_, rfl⟩)⟩

/-! ### Claim C4: execution timeout -/

/-- Claim C4: when the agent subprocess does not exit within the
execution timeout (`wait` raises `TimeoutExpired`), `run_prompt` kills the
process, emits an error event, and returns failure; no
`execution_complete` event is in its trace, and the process is killed
afterwards. -/
theorem c4_timeout_kills_and_fails (jp : String → Option Json)
    (pb : ClaudeRunner.ProcBehavior) (mid : Json) (h : pb.exitResult = none) :
    (ClaudeRunner.run_prompt jp pb mid).1.success = false
    ∧ Event.error (.str "Execution timed out") mid ∈ (ClaudeRunner.run_prompt jp pb mid).2.1
    ∧ (∀ e ∈ (ClaudeRunner.run_prompt jp pb mid).2.1, e.isComplete = false)
    ∧ (ClaudeRunner.run_prompt jp pb mid).2.2 = ClaudeRunner.ProcFinal.killed := by
  have hrun : ClaudeRunner.run_prompt jp pb mid =
      (⟨false, none, none, some "Execution timed out"⟩,
       (ClaudeRunner.readStdout jp mid pb.stdoutLines).2.1 ++
         [Event.error (.str "Execution timed out") mid],
       ClaudeRunner.ProcFinal.killed) := by
    unfold ClaudeRunner.run_prompt
    rw [h]
  rw [hrun]
  refine ⟨rfl, ?_, ?_, rfl⟩
  · exact List.mem_append_right _ (List.mem_singleton.mpr rfl)
  · intro e he
    rcases List.mem_append.mp he with h1 | h2
    · exact (readStdout_mem jp mid pb.stdoutLines e h1).1
    · rw [List.mem_singleton.mp h2]
      rfl

/-- Witness for C4: a concrete timed-out run — one stdout line, one
stderr line, no exit within the deadline. -/
theorem c4_timeout_kills_and_fails_witness :
    (ClaudeRunner.run_prompt (fun _ => none) ⟨["out"], ["err"], none⟩ Json.null).1.success = false
    ∧ Event.error (.str "Execution timed out") Json.null ∈
        (ClaudeRunner.run_prompt (fun _ => none) ⟨["out"], ["err"], none⟩ Json.null).2.1
    ∧ (ClaudeRunner.run_prompt (fun _ => none) ⟨["out"], ["err"], none⟩ Json.null).2.2 =
        ClaudeRunner.ProcFinal.killed :=
  ⟨(c4_timeout_kills_and_fails (fun _ => none) ⟨["out"], ["err"], none⟩ Json.null rfl).1,
   (c4_timeout_kills_and_fails (fun _ => none) ⟨["out"], ["err"], none⟩ Json.null rfl).2.1,
   (c4_timeout_kills_and_fails (fun _ => none) ⟨["out"], ["err"], none⟩ Json.null rfl).2.2.2⟩

/-! ### Claim C3: prompt handling order -/

theorem run_prompt_mid (jp : String → Option Json) (pb : ClaudeRunner.ProcBehavior)
    (mid : Json) : ∀ e ∈ (ClaudeRunner.run_prompt jp pb mid).2.1, e.mid = mid := by
  obtain ⟨so, se, ex⟩ := pb
  intro e he
  cases ex with
  | none =>
    rcases List.mem_append.mp he with h1 | h2
    · exact (readStdout_mem jp mid so e h1).2
    · rw [List.mem_singleton.mp h2]
      rfl
  | some code =>
    rcases List.mem_append.mp he with h1 | h2
    · rcases List.mem_append.mp h1 with h3 | h4
      · exact (readStdout_mem jp mid so e h3).2
      · split at h4
        · rw [List.mem_singleton.mp h4]
          rfl
        · cases h4
    · rw [List.mem_singleton.mp h2]
      rfl

theorem countComplete_cons_started (m : Json) (rest : List BridgeMsg) :
    countComplete (BridgeMsg.executionStarted m :: rest) = countComplete rest := by
  unfold countComplete
  simp [List.filter_cons, BridgeMsg.isComplete]

theorem countComplete_event_map (l : List Event) (tail : List BridgeMsg) :
    countComplete (l.map BridgeMsg.event ++ tail) = countComplete tail := by
  induction l with
  | nil => rfl
  | cons e t ih =>
    unfold countComplete at ih ⊢
    simp only [List.map_cons, List.cons_append, List.filter_cons]
    simp [BridgeMsg.isComplete, ih]

/-- Counterexample to C3 as stated: a prompt command whose `content` is
the empty string (a well-formed string per the interface) produces no
outbound messages at all — zero `execution_started` notifications and zero
`execution_complete` notifications for its message id, not exactly one. -/
theorem c3_counterexample :
    ControlPlaneBridge.handle_prompt (fun _ => none) ⟨[], [], some 0⟩
      [("messageId", Json.str "m1"), ("content", Json.str "")] = []
    ∧ countComplete [] ≠ 1 :=
  ⟨rfl, by decide⟩

/-- Claim C3 (amended): for every prompt command whose `content` is
truthy (non-empty), the connected bridge sends the `execution_started`
notification for the prompt's message id first, then every event of the
synchronous `run_prompt` — all carrying that message id, in the order of
their source lines — and finally exactly one `execution_complete`
notification for that id.  (A prompt with missing or empty content sends
nothing, per the counterexample.) -/
theorem c3_prompt_ordering (jp : String → Option Json) (pb : ClaudeRunner.ProcBehavior)
    (data : List (String × Json))
    (h : pyTruthy (dictGet data "content" Json.null) = true) :
    ControlPlaneBridge.handle_prompt jp pb data =
      BridgeMsg.executionStarted (dictGet data "messageId" Json.null) ::
        ((ClaudeRunner.run_prompt jp pb (dictGet data "messageId" Json.null)).2.1.map
            BridgeMsg.event ++
          [BridgeMsg.executionComplete (dictGet data "messageId" Json.null)
            (ClaudeRunner.run_prompt jp pb (dictGet data "messageId" Json.null)).1.success])
    ∧ (∀ e ∈ (ClaudeRunner.run_prompt jp pb (dictGet data "messageId" Json.null)).2.1,
        e.mid = dictGet data "messageId" Json.null)
    ∧ countComplete (ControlPlaneBridge.handle_prompt jp pb data) = 1 := by
  have hh : ControlPlaneBridge.handle_prompt jp pb data =
      BridgeMsg.executionStarted (dictGet data "messageId" Json.null) ::
        ((ClaudeRunner.run_prompt jp pb (dictGet data "messageId" Json.null)).2.1.map
            BridgeMsg.event ++
          [BridgeMsg.executionComplete (dictGet data "messageId" Json.null)
            (ClaudeRunner.run_prompt jp pb (dictGet data "messageId" Json.null)).1.success]) := by
    unfold ControlPlaneBridge.handle_prompt
    simp [h]
  refine ⟨hh, run_prompt_mid jp pb _, ?_⟩
  rw [hh, countComplete_cons_started, countComplete_event_map]
  rfl

/-- Witness for C3: a concrete prompt with content `go` and a one-line
successful run — the outbound stream is `execution_started`, the run's
events, then one `execution_complete{success: true}`. -/
theorem c3_prompt_ordering_witness :
    ControlPlaneBridge.handle_prompt (fun _ => none) ⟨["hi"], [], some 0⟩
        [("messageId", Json.str "m1"), ("content", Json.str "go")] =
      BridgeMsg.executionStarted (Json.str "m1") ::
        ((ClaudeRunner.run_prompt (fun _ => none) ⟨["hi"], [], some 0⟩
            (Json.str "m1")).2.1.map BridgeMsg.event ++
          [BridgeMsg.executionComplete (Json.str "m1") true])
    ∧ countComplete (ControlPlaneBridge.handle_prompt (fun _ => none) ⟨["hi"], [], some 0⟩
        [("messageId", Json.str "m1"), ("content", Json.str "go")]) = 1 :=
  ⟨(c3_prompt_ordering (fun _ => none) ⟨["hi"], [], some 0⟩
      [("messageId", Json.str "m1"), ("content", Json.str "go")] rfl).1,
   (c3_prompt_ordering (fun _ => none) ⟨["hi"], [], some 0⟩
      [("messageId", Json.str "m1"), ("content", Json.str "go")] rfl).2.2⟩

/-! ### Git lemmas -/

theorem strContains_empty_hay (needle : String) (h : needle ≠ "") :
    strContains needle "" = false := by
  unfold strContains listSub
  cases hd : needle.data with
  | nil =>
    exfalso
    apply h
    have hx : needle = ⟨needle.data⟩ := rfl
    rw [hx, hd]
  | cons c t => simp [hd]

theorem stripWS_append_newline (l : List Char) (hne : l ≠ [])
    (h : ∀ c ∈ l, isPySpace c = false) : stripWS (l ++ ['\n']) = l := by
  unfold stripWS
  have h1 : (l ++ ['\n']).dropWhile isPySpace = l ++ ['\n'] := by
    cases l with
    | nil => exact absurd rfl hne
    | cons c t =>
      have hc := h c (List.mem_cons_self c t)
      simp [List.cons_append, List.dropWhile_cons, hc]
  rw [h1, List.reverse_append]
  simp only [List.reverse_cons, List.reverse_nil, List.nil_append, List.singleton_append]
  rw [List.dropWhile_cons]
  simp only [show isPySpace '\n' = true from rfl, if_true]
  rw [dropWhile_all_false isPySpace l.reverse (fun c hc => h c (List.mem_reverse.mp hc))]
  exact List.reverse_reverse l

theorem pyStrip_branch_newline (b : String) (hne : b ≠ "")
    (h : ∀ c ∈ b.data, isPySpace c = false) : pyStrip (b ++ "\n") = b := by
  have hdata : (b ++ "\n").data = b.data ++ ['\n'] := by
    rw [String.data_append]
  have hbne : b.data ≠ [] := by
    intro hx
    apply hne
    have hy : b = ⟨b.data⟩ := rfl
    rw [hy, hx]
  unfold pyStrip
  rw [hdata, stripWS_append_newline b.data hbne h]

theorem gitExecIdeal_fetch (s : GitState) (b : String) :
    gitExecIdeal s ["fetch", "origin", b] =
      (match s.remote.lookup b with
       | some t => (⟨0, "", ""⟩, { s with fetched := (b, t) :: s.fetched })
       | none => (⟨128, "", "fatal: could not find remote ref " ++ b⟩, s)) := rfl

theorem gitExecIdeal_lsremote (s : GitState) (b : String) :
    gitExecIdeal s ["ls-remote", "--heads", "origin", b] =
      (match s.remote.lookup b with
       | some t => (⟨0, natRepr t ++ "\trefs/heads/" ++ b ++ "\n", ""⟩, s)
       | none => (⟨0, "", ""⟩, s)) := rfl

theorem gitExecIdeal_checkout_new (s : GitState) (b start : String) :
    gitExecIdeal s ["checkout", "-b", b, start] =
      (if (s.locals.lookup b).isSome then (⟨128, "", "fatal: branch already exists"⟩, s)
       else
        match resolveStart s start with
        | some t => (⟨0, "", ""⟩, { s with locals := (b, t) :: s.locals, current := b })
        | none => (⟨128, "", "fatal: not a commit"⟩, s)) := rfl

theorem gitExecIdeal_show_current (s : GitState) :
    gitExecIdeal s ["branch", "--show-current"] = (⟨0, s.current ++ "\n", ""⟩, s) := rfl

theorem resolveStart_origin (s : GitState) (b : String) :
    resolveStart s ("origin/" ++ b) = s.fetched.lookup b := by
  unfold resolveStart
  have hdata : ("origin/" ++ b).data = 'o' :: 'r' :: 'i' :: 'g' :: 'i' :: 'n' :: '/' :: b.data := by
    rw [String.data_append]
    rfl
  rw [hdata]
  rfl

theorem get_status_branch_ideal (s : GitState) :
    (GitOperations.get_status gitExecIdeal s).1.branch = some (pyStrip (s.current ++ "\n")) :=
  rfl

/-! ### Claim C7: checkout_branch -/

/-- Counterexample to C7 as stated: the exit code of the `ls-remote` probe
is never checked.  With a scripted git where `fetch` succeeds, `ls-remote`
exits 1 with empty output (so the working branch is treated as absent) and
`checkout -b` succeeds, `checkout_branch` returns `True` although a git
subprocess along the way exited non-zero. -/
theorem c7_counterexample :
    (GitOperations.checkout_branch scriptExec "feature" "main"
      ([⟨0, "", ""⟩, ⟨1, "", ""⟩, ⟨0, "", ""⟩], [])).1 = true
    ∧ ((GitOperations.checkout_branch scriptExec "feature" "main"
        ([⟨0, "", ""⟩, ⟨1, "", ""⟩, ⟨0, "", ""⟩], [])).2.1.2.map
          (fun p => p.2.returncode)) = [0, 1, 0] := by
  exact ⟨rfl, rfl⟩

/-- Claim C7 (amended): under an idealised git, when the working branch
does not exist on the remote (and is not yet a local branch),
`checkout_branch` creates it from the base branch's remote tip, leaves it
the current branch, and `get_status` afterwards reports it; a non-zero
exit of the base-branch fetch, or of the branch-creating checkout, makes
`checkout_branch` return failure — but the `ls-remote` exit code is not
checked (see the counterexample). -/
theorem c7_checkout_creates_branch (s : GitState) (branch base : String) (tip : Nat)
    (hbase : s.remote.lookup base = some tip)
    (hnr : s.remote.lookup branch = none)
    (hnl : s.locals.lookup branch = none)
    (hne : branch ≠ "")
    (hclean : ∀ c ∈ branch.data, isPySpace c = false) :
    (GitOperations.checkout_branch gitExecIdeal branch base s).1 = true
    ∧ (GitOperations.checkout_branch gitExecIdeal branch base s).2.1.current = branch
    ∧ (GitOperations.checkout_branch gitExecIdeal branch base s).2.1.locals.lookup branch =
        some tip
    ∧ (GitOperations.get_status gitExecIdeal
        (GitOperations.checkout_branch gitExecIdeal branch base s).2.1).1.branch = some branch
    ∧ (∀ s2 : GitState, s2.remote.lookup base = none →
        (GitOperations.checkout_branch gitExecIdeal branch base s2).1 = false)
    ∧ (∀ s3 : GitState, s3.remote.lookup base = some tip →
        s3.remote.lookup branch = none → (s3.locals.lookup branch).isSome →
        (GitOperations.checkout_branch gitExecIdeal branch base s3).1 = false) := by
  have hcb : GitOperations.checkout_branch gitExecIdeal branch base s =
      (true,
       { s with
          fetched := (base, tip) :: s.fetched,
          locals := (branch, tip) :: s.locals,
          current := branch },
       [Event.gitSync [("status", Json.str "checking_out"), ("branch", Json.str branch)],
        Event.gitSync [("status", Json.str "checked_out"), ("branch", Json.str branch)]]) := by
    unfold GitOperations.checkout_branch
    rw [gitExecIdeal_fetch, hbase]
    simp only
    rw [gitExecIdeal_lsremote]
    simp only [hnr]
    rw [strContains_empty_hay branch hne]
    simp only [Bool.false_eq_true, if_false]
    rw [gitExecIdeal_checkout_new]
    simp only [hnl, Option.isSome_none, Bool.false_eq_true, if_false]
    rw [resolveStart_origin]
    simp [List.lookup]
  refine ⟨by rw [hcb], by rw [hcb], ?_, ?_, ?_, ?_⟩
  · rw [hcb]
    simp [List.lookup]
  · rw [hcb, get_status_branch_ideal]
    rw [show ({ s with
          fetched := (base, tip) :: s.fetched,
          locals := (branch, tip) :: s.locals,
          current := branch } : GitState).current = branch from rfl]
    rw [pyStrip_branch_newline branch hne hclean]
  · intro s2 hs2
    unfold GitOperations.checkout_branch
    rw [gitExecIdeal_fetch, hs2]
    simp
  · intro s3 h1 h2 h3
    unfold GitOperations.checkout_branch
    rw [gitExecIdeal_fetch, h1]
    simp only
    rw [gitExecIdeal_lsremote]
    simp only [h2]
    rw [strContains_empty_hay branch hne]
    simp only [Bool.false_eq_true, if_false]
    rw [gitExecIdeal_checkout_new]
    simp [h3]

/-- Witness for C7: a concrete repository with remote `main` at tip 5 and
no `feature` branch anywhere — checkout creates `feature` at tip 5 and
status reports it; a missing remote base or a pre-existing local branch
of the same name fails. -/
theorem c7_checkout_creates_branch_witness :
    (GitOperations.checkout_branch gitExecIdeal "feature" "main"
      ⟨[("main", 5)], [], [("main", 5)], "main", ""⟩).1 = true
    ∧ (GitOperations.checkout_branch gitExecIdeal "feature" "main"
        ⟨[("main", 5)], [], [("main", 5)], "main", ""⟩).2.1.current = "feature"
    ∧ (GitOperations.checkout_branch gitExecIdeal "feature" "main"
        ⟨[("main", 5)], [], [("main", 5)], "main", ""⟩).2.1.locals.lookup "feature" = some 5
    ∧ (GitOperations.get_status gitExecIdeal
        (GitOperations.checkout_branch gitExecIdeal "feature" "main"
          ⟨[("main", 5)], [], [("main", 5)], "main", ""⟩).2.1).1.branch = some "feature"
    ∧ (GitOperations.checkout_branch gitExecIdeal "feature" "main"
        ⟨[], [], [], "x", ""⟩).1 = false
    ∧ (GitOperations.checkout_branch gitExecIdeal "feature" "main"
        ⟨[("main", 5)], [], [("feature", 9)], "main", ""⟩).1 = false := by
  have h := c7_checkout_creates_branch ⟨[("main", 5)], [], [("main", 5)], "main", ""⟩
    "feature" "main" 5 (by decide) (by decide) (by decide) (by decide) (by decide)
  exact ⟨h.1, h.2.1, h.2.2.1, h.2.2.2.1,
    h.2.2.2.2.1 ⟨[], [], [], "x", ""⟩ (by decide),
    h.2.2.2.2.2 ⟨[("main", 5)], [], [("feature", 9)], "main", ""⟩
      (by decide) (by decide) (by decide)⟩

/-! ### Claim C8: push_changes -/

theorem get_status_script (r1 r2 r3 : GitResult) (rest : List GitResult)
    (log : List (List String × GitResult)) :
    GitOperations.get_status scriptExec (r1 :: r2 :: r3 :: rest, log) =
      (⟨if r3.returncode = 0 then some (pyStrip r3.stdout) else none,
        if r2.returncode = 0 then some (pyStrip r2.stdout) else none,
        GitOperations.statusChanged r1.stdout,
        !(GitOperations.statusChanged r1.stdout).isEmpty⟩,
       (rest, log ++ [(["status", "--porcelain"], r1), (["rev-parse", "HEAD"], r2),
         (["branch", "--show-current"], r3)])) := by
  unfold GitOperations.get_status scriptExec
  simp [List.append_assoc]

/-- Claim C8: `push_changes` on a clean workspace returns `True` having
run only the three status queries — no `add`, `commit` or `push`
subprocess is invoked; on a dirty one it stages all changes, commits the
fixed message, pushes the working branch, and returns `False` as soon as
any of those three exits non-zero. -/
theorem c8_push_changes (branch : String) (r1 r2 r3 r4 r5 r6 : GitResult)
    (rest : List GitResult) :
    (GitOperations.statusChanged r1.stdout = [] →
      GitOperations.push_changes scriptExec branch (r1 :: r2 :: r3 :: rest, []) =
        (true, (rest,
          [(["status", "--porcelain"], r1), (["rev-parse", "HEAD"], r2),
           (["branch", "--show-current"], r3)]), []))
    ∧ (GitOperations.statusChanged r1.stdout ≠ [] →
        r4.returncode = 0 → r5.returncode = 0 → r6.returncode = 0 →
        GitOperations.push_changes scriptExec branch
            (r1 :: r2 :: r3 :: r4 :: r5 :: r6 :: rest, []) =
          (true, (rest,
            [(["status", "--porcelain"], r1), (["rev-parse", "HEAD"], r2),
             (["branch", "--show-current"], r3), (["add", "-A"], r4),
             (["commit", "-m", "Changes from Superset cloud workspace"], r5),
             (["push", "origin", branch], r6)]),
           [Event.gitSync [("status", Json.str "pushing")],
            Event.gitSync [("status", Json.str "pushed"), ("branch", Json.str branch)]]))
    ∧ (GitOperations.statusChanged r1.stdout ≠ [] → r4.returncode ≠ 0 →
        (GitOperations.push_changes scriptExec branch
          (r1 :: r2 :: r3 :: r4 :: r5 :: r6 :: rest, [])).1 = false)
    ∧ (GitOperations.statusChanged r1.stdout ≠ [] → r4.returncode = 0 →
        r5.returncode ≠ 0 →
        (GitOperations.push_changes scriptExec branch
          (r1 :: r2 :: r3 :: r4 :: r5 :: r6 :: rest, [])).1 = false)
    ∧ (GitOperations.statusChanged r1.stdout ≠ [] → r4.returncode = 0 →
        r5.returncode = 0 → r6.returncode ≠ 0 →
        (GitOperations.push_changes scriptExec branch
          (r1 :: r2 :: r3 :: r4 :: r5 :: r6 :: rest, [])).1 = false) := by
  refine ⟨?_, ?_, ?_, ?_, ?_⟩
  · intro hclean
    unfold GitOperations.push_changes
    rw [get_status_script]
    simp [hclean]
  · intro hd h4 h5 h6
    unfold GitOperations.push_changes
    rw [get_status_script]
    simp [hd, scriptExec, h4, h5, h6]
  · intro hd h4
    unfold GitOperations.push_changes
    rw [get_status_script]
    simp [hd, scriptExec, h4]
  · intro hd h4 h5
    unfold GitOperations.push_changes
    rw [get_status_script]
    simp [hd, scriptExec, h4, h5]
  · intro hd h4 h5 h6
    unfold GitOperations.push_changes
    rw [get_status_script]
    simp [hd, scriptExec, h4, h5, h6]

/-- Witness for C8: a clean porcelain status returns `True` with only the
three status queries logged; a dirty one stages, commits and pushes; a
failing `add` fails the push. -/
theorem c8_push_changes_witness :
    GitOperations.push_changes scriptExec "feature"
        ([⟨0, "", ""⟩, ⟨0, "abc", ""⟩, ⟨0, "main", ""⟩], []) =
      (true, ([],
        [(["status", "--porcelain"], ⟨0, "", ""⟩), (["rev-parse", "HEAD"], ⟨0, "abc", ""⟩),
         (["branch", "--show-current"], ⟨0, "main", ""⟩)]), [])
    ∧ GitOperations.push_changes scriptExec "feature"
        ([⟨0, "M a\n", ""⟩, ⟨0, "abc", ""⟩, ⟨0, "main", ""⟩,
          ⟨0, "", ""⟩, ⟨0, "", ""⟩, ⟨0, "", ""⟩], []) =
      (true, ([],
        [(["status", "--porcelain"], ⟨0, "M a\n", ""⟩), (["rev-parse", "HEAD"], ⟨0, "abc", ""⟩),
         (["branch", "--show-current"], ⟨0, "main", ""⟩), (["add", "-A"], ⟨0, "", ""⟩),
         (["commit", "-m", "Changes from Superset cloud workspace"], ⟨0, "", ""⟩),
         (["push", "origin", "feature"], ⟨0, "", ""⟩)]),
       [Event.gitSync [("status", Json.str "pushing")],
        Event.gitSync [("status", Json.str "pushed"), ("branch", Json.str "feature")]])
    ∧ (GitOperations.push_changes scriptExec "feature"
        ([⟨0, "M a\n", ""⟩, ⟨0, "abc", ""⟩, ⟨0, "main", ""⟩,
          ⟨1, "", "boom"⟩, ⟨0, "", ""⟩, ⟨0, "", ""⟩], [])).1 = false :=
  ⟨(c8_push_changes "feature" ⟨0, "", ""⟩ ⟨0, "abc", ""⟩ ⟨0, "main", ""⟩
      ⟨0, "", ""⟩ ⟨0, "", ""⟩ ⟨0, "", ""⟩ []).1 (by decide),
   (c8_push_changes "feature" ⟨0, "M a\n", ""⟩ ⟨0, "abc", ""⟩ ⟨0, "main", ""⟩
      ⟨0, "", ""⟩ ⟨0, "", ""⟩ ⟨0, "", ""⟩ []).2.1 (by decide) rfl rfl rfl,
   (c8_push_changes "feature" ⟨0, "M a\n", ""⟩ ⟨0, "abc", ""⟩ ⟨0, "main", ""⟩
      ⟨1, "", "boom"⟩ ⟨0, "", ""⟩ ⟨0, "", ""⟩ []).2.2.1 (by decide) (by decide)⟩

end Superset
